import Mathlib

/-!
Verification development for the StreamFlow stream process supervisor
(`services/streamingService.js`, with `utils/ffmpegConfig.js` and
`services/streamHealthMonitor.js` as collaborators).

The JavaScript module keeps, per stream id, entries in the global maps
`activeStreams`, `streamLogs`, `streamRetryCount`, `streamStartTimes`,
`streamVideoPositions`, `streamBasePositions` and the set
`manuallyStoppingStreams`.  All operations touch only the entry of the
stream id they are given, so the state is embedded as the projection of
those maps at one fixed stream id (a `Session`), together with the
durable stream record (`dbStatus`, the `Stream.findById` /
`Stream.updateStatus` collaborator at that id) and the multiset of
operating-system processes spawned for this stream that have not yet
exited (`liveProcs`, identified by opaque numeric handles).

Timestamps are integer milliseconds (`new Date()` arithmetic in the
source subtracts dates at millisecond precision); media positions are
natural numbers of seconds.  Retry delays are embedded as exact rational
numbers of milliseconds because `Math.pow(2, retryCount - 1)` produces
the non-integer value 1/2 when `retryCount = 0`.
-/

namespace StreamFlow

/-- One timestamped log line (`{timestamp, message}` in `addStreamLog`).
The timestamp is the millisecond clock value at which the line was
appended. -/
abbrev LogEntry := Int × String

/-- `MAX_LOG_LINES` from `services/streamingService.js` line 26. -/
def MAX_LOG_LINES : Nat := 100

/-- `MAX_RETRY_ATTEMPTS` from `services/streamingService.js` line 24. -/
def MAX_RETRY_ATTEMPTS : Nat := 3

/-- `addStreamLog(streamId, message)` from `services/streamingService.js`
lines 33-45, acting on the log list of one stream id: push the new entry,
then `if (logs.length > MAX_LOG_LINES) logs.shift()`. -/
def addStreamLog (logs : List LogEntry) (now : Int) (message : String) : List LogEntry :=
  let logs := logs ++ [(now, message)]
  if logs.length > MAX_LOG_LINES then logs.tail else logs

/-- Appending a whole sequence of log lines in order through
`addStreamLog` (each `data`/lifecycle event in the source appends one
line). -/
def appendLogs (logs : List LogEntry) (entries : List LogEntry) : List LogEntry :=
  entries.foldl (fun l e => addStreamLog l e.1 e.2) logs

/-- The durable status of the stream record (`stream.status`), written
through `Stream.updateStatus(streamId, 'live' | 'offline')`. -/
inductive DbStatus
  | live
  | offline
deriving Repr, DecidableEq

/-- `Stream.updateStatus` on the record of this stream id: a SQL UPDATE
that changes the status when the record exists and does nothing when it
has been deleted. -/
def updateStatus (db : Option DbStatus) (st : DbStatus) : Option DbStatus :=
  db.map fun _ => st

/-- Projection of the per-stream global maps of
`services/streamingService.js` at one stream id.  A `none` field means
the map has no entry for this id. -/
structure Session where
  /-- `activeStreams.get(streamId)`: the tracked process handle. -/
  procHandle : Option Nat := none
  /-- `streamStartTimes.get(streamId)` (ms). -/
  startTime : Option Int := none
  /-- `streamVideoPositions.get(streamId)` (seconds). -/
  videoPos : Option Nat := none
  /-- `streamBasePositions.get(streamId)` (seconds). -/
  basePos : Option Nat := none
  /-- `streamRetryCount.get(streamId)`. -/
  retryCount : Option Nat := none
  /-- `streamLogs.get(streamId)` (empty list when absent; `addStreamLog`
  creates the entry on first use). -/
  logs : List LogEntry := []
  /-- `manuallyStoppingStreams.has(streamId)`. -/
  manualStopping : Bool := false
deriving Repr, DecidableEq

/-- The supervisor-visible world for one stream id: the in-memory
session, the durable stream record, and the processes spawned for this
stream that have not yet exited. -/
structure World where
  session : Session
  dbStatus : Option DbStatus
  liveProcs : List Nat
deriving Repr, DecidableEq

/-- Append one log line to the session inside a world. -/
def logW (w : World) (now : Int) (message : String) : World :=
  { w with session := { w.session with logs := addStreamLog w.session.logs now message } }

/-- JavaScript truthiness of the `resumePosition` argument (a number or
`null`): `null` and `0` are falsy, every other number is truthy.  Used
by `if (!resumePosition)`, `if (resumePosition)` and
`resumed: !!resumePosition` in `startStream`. -/
def truthy : Option Nat → Bool
  | none => false
  | some n => n != 0

/-- The environment consulted by `startStream` through its external
collaborators: whether `Video.findById(stream.video_id)` returns a
record, and whether `fs.existsSync(videoPath)` finds the media file
(`buildFFmpegArgs`, lines 47-85). -/
structure StartEnv where
  videoFound : Bool
  fileOnDisk : Bool
deriving Repr, DecidableEq

/-- Result of `startStream` (`{success: true, ...}` / `{success: false,
error}` from `services/streamingService.js`). -/
inductive StartResult
  | ok (resumed : Bool)
  | err (message : String)
deriving Repr, DecidableEq

/-- The two failure conditions of `buildFFmpegArgs`
(`services/streamingService.js` lines 47-65): missing video record and
missing media file, with the thrown error messages.  The argument list
itself (delegated to `ffmpegConfig.buildFFmpegArgs`) is parameterization
outside the supervisor logic and is not modelled. -/
def buildFFmpegArgsCheck (env : StartEnv) : Except String Unit :=
  if !env.videoFound then .error "Video record not found in database"
  else if !env.fileOnDisk then
    .error "Video file not found on disk. Please check paths and file existence."
  else .ok ()

/-- `startStream(streamId, resumePosition = null)` from
`services/streamingService.js` lines 87-235 (the current service, the
one whose exports match `test-streaming-improvements.js`).  `newPid` is
the handle of the process `spawn` would create; `now` is the clock.
Steps in source order: reset the retry count when `!resumePosition`;
`Stream.findById`; `buildFFmpegArgs` (its failures are caught by the
surrounding try/catch, which logs `Failed to start stream` and returns
`{success: false}`); logging; `spawn` + `activeStreams.set` +
`streamStartTimes.set`; base/current position initialization (lines
120-129); `Stream.updateStatus(streamId, 'live')`; success result. -/
def startStream (env : StartEnv) (w : World) (resumePosition : Option Nat)
    (now : Int) (newPid : Nat) : StartResult × World :=
  let w := if !truthy resumePosition then
      { w with session := { w.session with retryCount := none } }
    else w
  match w.dbStatus with
  | none => (.err "Stream not found", w)
  | some _ =>
    match buildFFmpegArgsCheck env with
    | .error msg => (.err msg, logW w now ("Failed to start stream: " ++ msg))
    | .ok _ =>
      let w := logW w now "Built FFmpeg args"
      let w := logW w now "Starting stream with command"
      let w := if truthy resumePosition then
          logW w now ("Resuming from position: " ++ toString (resumePosition.getD 0) ++ "s")
        else w
      let w := { w with
        liveProcs := newPid :: w.liveProcs,
        session := { w.session with procHandle := some newPid, startTime := some now } }
      let w :=
        if truthy resumePosition && decide (0 < resumePosition.getD 0) then
          let r := resumePosition.getD 0
          logW { w with session := { w.session with videoPos := some r, basePos := some r } }
            now ("Set base resume position to: " ++ toString r ++ "s")
        else if !w.session.videoPos.isSome then
          logW { w with session := { w.session with videoPos := some 0, basePos := some 0 } }
            now "Initialized base resume position to: 0s"
        else w
      let w := { w with dbStatus := updateStatus w.dbStatus .live }
      (.ok (truthy resumePosition), w)

/-- `startStream(streamId, resumePosition = null)` of the older retained
copy of the streaming service (the variant without base-position
tracking), lines 139-278 of that file: it sets the retry count to 0 on a
fresh start and refuses with `'Stream is already active'` when
`activeStreams.has(streamId)` (lines 146-148), and it does not maintain
`streamBasePositions`. -/
def startStream_old (env : StartEnv) (w : World) (resumePosition : Option Nat)
    (now : Int) (newPid : Nat) : StartResult × World :=
  let w := if !truthy resumePosition then
      { w with session := { w.session with retryCount := some 0 } }
    else w
  if w.session.procHandle.isSome then
    (.err "Stream is already active", w)
  else
    match w.dbStatus with
    | none => (.err "Stream not found", w)
    | some _ =>
      match buildFFmpegArgsCheck env with
      | .error msg => (.err msg, logW w now ("Failed to start stream: " ++ msg))
      | .ok _ =>
        let w := logW w now "Starting stream with command"
        let w := if truthy resumePosition then
            logW w now ("Resuming from position: " ++ toString (resumePosition.getD 0) ++ "s")
          else w
        let w := { w with
          liveProcs := newPid :: w.liveProcs,
          session := { w.session with procHandle := some newPid, startTime := some now } }
        let w := { w with dbStatus := updateStatus w.dbStatus .live }
        (.ok (truthy resumePosition), w)

/-- `calculateResumePosition(streamId)` from `services/streamingService.js`
lines 331-349: `basePosition + Math.max(0, Math.floor((now - startTime) /
1000))`, updating `streamVideoPositions`; with no start time it returns
the stored base position unchanged. -/
def calculateResumePosition (w : World) (now : Int) : Nat × World :=
  let basePosition := w.session.basePos.getD 0
  match w.session.startTime with
  | none =>
      (basePosition,
        logW w now ("No start time found. Using base resume position: "
          ++ toString basePosition ++ "s"))
  | some startTime =>
      let elapsedSeconds := (max 0 ((now - startTime).fdiv 1000)).toNat
      let resumePosition := basePosition + elapsedSeconds
      let w := { w with session := { w.session with videoPos := some resumePosition } }
      (resumePosition,
        logW w now ("Calculated resume position: base=" ++ toString basePosition
          ++ "s + elapsed=" ++ toString elapsedSeconds ++ "s => "
          ++ toString resumePosition ++ "s"))

/-- What the exit handler decided to do: schedule a crash-path restart
timer, schedule an error-path restart timer (with its backoff delay in
milliseconds), or schedule nothing. -/
inductive ExitOutcome
  | retryCrash (resume : Nat) (delayMs : ℚ)
  | retryError (resume : Nat) (delayMs : ℚ)
  | noRetry
deriving Repr, DecidableEq

/-- `Math.min(3000 * Math.pow(2, retryCount - 1), 30000)` from
`handleStreamError` (line 293), where `retryCount` is the value read from
`streamRetryCount` before it is incremented.  Exact rational arithmetic:
`Math.pow(2, -1) = 0.5`. -/
def backoffDelay (retryCount : Nat) : ℚ :=
  min (3000 * (2 : ℚ) ^ ((retryCount : ℤ) - 1)) 30000

/-- `handleStreamCrash(streamId, reason)` from
`services/streamingService.js` lines 237-277: below `MAX_RETRY_ATTEMPTS`
it increments the retry count, computes the resume position and schedules
a 3000 ms restart timer; otherwise it marks the durable record offline
and schedules nothing. -/
def handleStreamCrash (w : World) (reason : String) (now : Int) : ExitOutcome × World :=
  let retryCount := w.session.retryCount.getD 0
  if retryCount < MAX_RETRY_ATTEMPTS then
    let w := { w with session := { w.session with retryCount := some (retryCount + 1) } }
    let w := logW w now ("FFmpeg crashed with " ++ reason ++ ". Attempting restart #"
      ++ toString (retryCount + 1))
    let (resumePosition, w) := calculateResumePosition w now
    (.retryCrash resumePosition 3000, w)
  else
    let w := logW w now ("Maximum retry attempts (" ++ toString MAX_RETRY_ATTEMPTS
      ++ ") reached, stopping stream")
    (.noRetry, { w with dbStatus := updateStatus w.dbStatus .offline })

/-- `handleStreamError(streamId, code, signal)` from
`services/streamingService.js` lines 279-329: logs the error, and below
`MAX_RETRY_ATTEMPTS` increments the retry count, computes the resume
position and schedules a restart timer with the exponential backoff
delay; otherwise it marks the durable record offline and schedules
nothing. -/
def handleStreamError (w : World) (code : Int) (now : Int) : ExitOutcome × World :=
  let w := logW w now ("FFmpeg process exited with error code " ++ toString code)
  let retryCount := w.session.retryCount.getD 0
  if retryCount < MAX_RETRY_ATTEMPTS then
    let w := { w with session := { w.session with retryCount := some (retryCount + 1) } }
    let (resumePosition, w) := calculateResumePosition w now
    let w := logW w now ("Scheduling restart in " ++ toString (backoffDelay retryCount)
      ++ "ms with resume position: " ++ toString resumePosition ++ "s")
    (.retryError resumePosition (backoffDelay retryCount), w)
  else
    let w := logW w now ("Maximum retry attempts (" ++ toString MAX_RETRY_ATTEMPTS
      ++ ") reached, stopping stream")
    (.noRetry, { w with dbStatus := updateStatus w.dbStatus .offline })

/-- The classification performed by the `ffmpegProcess.on('exit')`
handler (`services/streamingService.js` lines 162-204): manual stop
first, then `signal === 'SIGSEGV'`, then `code !== 0 && code !== null`,
else a normal exit. -/
inductive ExitClass
  | manualStopCleanup
  | crashSignal (reason : String)
  | errorCode (code : Int)
  | normalExit
deriving Repr, DecidableEq

/-- The branch structure of the exit handler, as a function of the
manual-stop flag, the exit code (`none` = `null`) and the signal. -/
def classifyExit (isManualStop : Bool) (code : Option Int) (signal : Option String) :
    ExitClass :=
  if isManualStop then .manualStopCleanup
  else if signal == some "SIGSEGV" then .crashSignal "SIGSEGV"
  else if !(code == some 0) && code.isSome then .errorCode (code.getD 0)
  else .normalExit

/-- The `ffmpegProcess.on('exit')` handler (lines 162-204), fired when
process `exitingPid` terminates: it logs the exit, removes the tracked
handle (`activeStreams.delete`, recording `wasActive`), and dispatches on
`classifyExit`.  The manual-stop branch clears the flag and (when the
handle was tracked) marks the durable record offline; the crash and
error-code branches run the retry controller; a normal exit marks the
record offline. -/
def onExit (w : World) (exitingPid : Nat) (code : Option Int) (signal : Option String)
    (now : Int) : ExitOutcome × World :=
  let w := { w with liveProcs := w.liveProcs.erase exitingPid }
  let w := logW w now ("Stream ended with code " ++ toString code
    ++ ", signal: " ++ toString signal)
  let s := w.session
  let wasActive := s.procHandle.isSome
  let w := { w with session := { s with procHandle := none } }
  match classifyExit s.manualStopping code signal with
  | .manualStopCleanup =>
      let w := { w with session := { w.session with manualStopping := false } }
      let w := if wasActive then { w with dbStatus := updateStatus w.dbStatus .offline }
        else w
      (.noRetry, w)
  | .crashSignal reason => handleStreamCrash w reason now
  | .errorCode c => handleStreamError w c now
  | .normalExit =>
      let w := if wasActive then { w with dbStatus := updateStatus w.dbStatus .offline }
        else w
      (.noRetry, w)

/-- The body of the `setTimeout` scheduled by `handleStreamCrash` (lines
247-267): re-fetch the stream record; when it still exists call
`startStream(streamId, resumePosition)` and force the status offline if
that fails; when the record is gone do nothing (console output only). -/
def crashRetryCallback (env : StartEnv) (w : World) (resumePosition : Nat)
    (now : Int) (newPid : Nat) : World :=
  match w.dbStatus with
  | some _ =>
      let (result, w) := startStream env w (some resumePosition) now newPid
      match result with
      | .err _ => { w with dbStatus := updateStatus w.dbStatus .offline }
      | .ok _ => w
  | none => w

/-- The body of the `setTimeout` scheduled by `handleStreamError` (lines
297-319): re-fetch the stream record; when it still exists log the
attempt, call `startStream(streamId, resumePosition)` and force the
status offline if that fails; when the record is gone log that the
restart is abandoned.  `retryNumber` is the attempt number captured by
the closure. -/
def errorRetryCallback (env : StartEnv) (w : World) (resumePosition : Nat)
    (retryNumber : Nat) (now : Int) (newPid : Nat) : World :=
  match w.dbStatus with
  | some _ =>
      let w := logW w now ("Attempting restart #" ++ toString retryNumber ++ "...")
      let (result, w) := startStream env w (some resumePosition) now newPid
      match result with
      | .err e =>
          let w := logW w now ("Restart failed: " ++ e)
          { w with dbStatus := updateStatus w.dbStatus .offline }
      | .ok _ =>
          logW w now ("Restart successful, resumed from position: "
            ++ toString resumePosition ++ "s")
  | none => logW w now "Cannot restart: stream not found in database"

/-- Result of `stopStream`. -/
inductive StopResult
  | ok (message : String)
  | err (message : String)
deriving Repr, DecidableEq

/-- `stopStream(streamId)` from `services/streamingService.js` lines
351-403.  With no tracked process: repair a `'live'` durable record to
`'offline'` (drift self-healing) or fail with `'Stream is not active'`.
With a tracked process: set the manual-stop flag, `kill('SIGTERM')`
(`killOk = false` models the throw, which clears the flag again and is
otherwise swallowed), drop the handle, clear all tracking data
(`cleanupStreamData`), mark the record offline and save history.  The
SIGTERM is asynchronous: the process leaves `liveProcs` only when its
exit event fires. -/
def stopStream (w : World) (killOk : Bool) (now : Int) : StopResult × World :=
  let isActive := w.session.procHandle.isSome
  if !isActive then
    match w.dbStatus with
    | some .live =>
        let w := { w with dbStatus := updateStatus w.dbStatus .offline }
        (.ok "Stream status fixed (was not active but marked as live)", w)
    | _ => (.err "Stream is not active", w)
  else
    let w := logW w now "Stopping stream..."
    let w := { w with session := { w.session with manualStopping := true } }
    let w := if killOk then w
      else { w with session := { w.session with manualStopping := false } }
    let w := { w with session := { w.session with procHandle := none } }
    let w := { w with session := { w.session with
      startTime := none, videoPos := none, basePos := none,
      retryCount := none, logs := [] } }
    let w := match w.dbStatus with
      | some _ => { w with dbStatus := updateStatus w.dbStatus .offline }
      | none => w
    (.ok "Stream stopped successfully", w)

/-! ### Failure/retry traces

A crash→retry cycle of the running instance: the process dies (its exit
event runs the retry controller) and, when a restart timer was
scheduled, the timer fires and its callback restarts the stream.  The
durations are quantified, so the exact instant at which the timer fires
only shifts the next instance's start time; the cycles below fire it
3000 ms after the exit. -/

/-- One crash→retry cycle, starting from a world whose instance has been
running since `startTime`: the process is killed by SIGSEGV `durMs`
milliseconds after that start, and the scheduled 3000 ms restart timer
then fires.  Returns the resume position handed to the restarted
instance (0 and no restart if no timer was scheduled). -/
def crashCycle (env : StartEnv) (w : World) (durMs : Nat) (newPid : Nat) : Nat × World :=
  let t := w.session.startTime.getD 0
  let now := t + durMs
  match onExit w (w.session.procHandle.getD 0) none (some "SIGSEGV") now with
  | (.retryCrash resume _, w) => (resume, crashRetryCallback env w resume (now + 3000) newPid)
  | (.retryError resume _, w) => (resume, crashRetryCallback env w resume (now + 3000) newPid)
  | (.noRetry, w) => (0, w)

/-- The sequence of resume positions handed to the successive restarted
instances when the current instance crashes after `d₁` ms, the restarted
one after `d₂` ms, and so on. -/
def crashTrace (env : StartEnv) (w : World) : List Nat → List Nat
  | [] => []
  | d :: ds =>
    (crashCycle env w d 0).1 :: crashTrace env (crashCycle env w d 0).2 ds

/-- A failure of the running process: a SIGSEGV kill or an exit with a
code (the exit event receives `(code, null)`). -/
inductive FailKind
  | crash
  | errExit (code : Int)
deriving Repr, DecidableEq

/-- One failure→retry cycle of either kind, `durMs` milliseconds into the
current instance: the exit event runs, and if a restart timer was
scheduled it fires (crash-path or error-path callback as scheduled).
Returns whether a retry was scheduled. -/
def failStep (env : StartEnv) (w : World) (k : FailKind) (durMs : Nat) (newPid : Nat) :
    Bool × World :=
  let t := w.session.startTime.getD 0
  let now := t + durMs
  let code : Option Int := match k with
    | .crash => none
    | .errExit c => some c
  let signal : Option String := match k with
    | .crash => some "SIGSEGV"
    | .errExit _ => none
  match onExit w (w.session.procHandle.getD 0) code signal now with
  | (.retryCrash resume _, w) =>
      (true, crashRetryCallback env w resume (now + 3000) newPid)
  | (.retryError resume _, w) =>
      (true, errorRetryCallback env w resume (w.session.retryCount.getD 0) (now + 3000) newPid)
  | (.noRetry, w) => (false, w)

/-- Run a sequence of failure cycles, counting how many automatic
retries were scheduled. -/
def runFails (env : StartEnv) (w : World) : List (FailKind × Nat) → Nat × World
  | [] => (0, w)
  | (k, d) :: evs =>
    let s := failStep env w k d 0
    let rest := runFails env s.2 evs
    ((if s.1 then 1 else 0) + rest.1, rest.2)

/-! ### Definitions taken from the specification's words

These are deliberately written from the specification, to be compared
with the definitions above that are translated from the source. -/

/-- Modelled from the spec: `computeResumePosition(streamId)` is
`basePosition + max(0, floor(now - startedAt))` at seconds granularity,
and with no start time recorded it returns the stored `basePosition`
(or 0 when none is stored). -/
def specResumePosition (basePosition : Option Nat) (startedAt : Option Int) (now : Int) :
    Nat :=
  match startedAt with
  | none => basePosition.getD 0
  | some t => basePosition.getD 0 + (max 0 ((now - t).fdiv 1000)).toNat

/-- Modelled from the spec: the cumulative resume positions it predicts
for crash→retry cycles — the position passed to instance `k+1` is the
position passed to instance `k` plus the elapsed run time (in whole
seconds) of instance `k`. -/
def specCumResumes (r : Nat) : List Nat → List Nat
  | [] => []
  | d :: ds =>
    let r := r + d / 1000
    r :: specCumResumes r ds

/-- Modelled from the spec: the POSIX fault signals a process can be
killed by ("process killed by a fault signal"). -/
def spec_faultSignals : List String :=
  ["SIGSEGV", "SIGBUS", "SIGFPE", "SIGILL", "SIGABRT"]

/-- Modelled from the spec: the re-check the restart callback is claimed
to perform immediately before acting — "the durable record still wants
the stream live or the session still exists". -/
def specRetryRecheck (w : World) : Bool :=
  (w.dbStatus == some .live) || w.session.procHandle.isSome

/-! ### Concrete worlds used by witnesses and counterexamples -/

/-- An environment in which every external precondition holds: the video
record exists and the media file is on disk. -/
def envOK : StartEnv := ⟨true, true⟩

/-- A stream that exists durably (status offline) and has never been
started in this process. -/
def w0 : World := { session := {}, dbStatus := some .offline, liveProcs := [] }

/-- A session already present in the active registry: process 1 is live
and tracked, the durable record says live. -/
def activeWorld : World :=
  { session := { procHandle := some 1, startTime := some 0, videoPos := some 0,
                 basePos := some 0, retryCount := none, logs := [], manualStopping := false },
    dbStatus := some .live, liveProcs := [1] }

/-- The world after a fresh `startStream` of `w0` at time 0 (process 1). -/
def freshWorld : World := (startStream envOK w0 none 0 1).2

/-- The world after `startStream(streamId, 3600)` of `w0` at time 0
(process 1): a session resumed at one hour. -/
def resumedWorld : World := (startStream envOK w0 (some 3600) 0 1).2

/-- A stream whose durable record says live while nothing is tracked in
memory (drift). -/
def driftWorld : World := { session := {}, dbStatus := some .live, liveProcs := [] }

/-- A stream whose durable record has been deleted. -/
def deletedWorld : World := { session := {}, dbStatus := none, liveProcs := [] }

/-- Three consecutive failures (crash, error exit 1, crash) of a resumed
session. -/
def evs3 : List (FailKind × Nat) := [(.crash, 1000), (.errExit 1, 2000), (.crash, 500)]

/-- Four consecutive crashes, each within the first second of its
instance, from a fresh start. -/
def evs4 : List (FailKind × Nat) :=
  [(.crash, 500), (.crash, 500), (.crash, 500), (.crash, 500)]

/-- `freshWorld` after its process exits with code 1 at 12 s: the exit
handler has scheduled an error-path retry with resume position 12. -/
def c4_afterExit : World := (onExit freshWorld 1 (some 1) none 12000).2

/-- `c4_afterExit` after a manual `stopStream` at 13 s (the drift-repair
branch: no process is tracked, the record said live). -/
def c4_afterStop : World := (stopStream c4_afterExit true 13000).2

/-- `c4_afterStop` when the pending error-path retry timer fires at
13.5 s and its callback runs (restart as process 2). -/
def c4_afterTimer : World := errorRetryCallback envOK c4_afterStop 12 1 13500 2

/-- A session whose retry budget is exhausted: the retry count stands at
`MAX_RETRY_ATTEMPTS`, the last instance (started at time 0, base position
5 s) is gone, and the durable record still says live. -/
def exhaustedWorld : World :=
  { session := { procHandle := none, startTime := some 0, videoPos := some 5,
                 basePos := some 5, retryCount := some 3, logs := [],
                 manualStopping := false },
    dbStatus := some .live, liveProcs := [] }

/-! ## Theorems -/

/-- Elapsed-seconds arithmetic: when the exit fires `d` milliseconds after
the recorded start time `t`, the computed elapsed value is `d / 1000`. -/
theorem elapsed_toNat (t : Int) (d : Nat) :
    (max 0 ((t + (d:Int) - t).fdiv 1000)).toNat = d / 1000 := by
  have h1 : t + (d:Int) - t = (d:Int) := by ring
  have h2 : ((1000 : Nat) : Int) = (1000 : Int) := by norm_num
  rw [h1, ← h2, ← Int.ofNat_fdiv, max_eq_right (Int.natCast_nonneg _), Int.toNat_natCast]

/-- Variant of `elapsed_toNat` in the normal form `simp` produces. -/
theorem elapsed_sup (d : Nat) : ((0:ℤ) ⊔ (((d:Int)).fdiv 1000)).toNat = d / 1000 := by
  have h2 : ((1000 : Nat) : Int) = (1000 : Int) := by norm_num
  rw [← h2, ← Int.ofNat_fdiv]
  rw [show ((0:ℤ) ⊔ (((d / 1000 : Nat) : Int))) = ((d / 1000 : Nat) : Int) from
    max_eq_right (Int.natCast_nonneg _)]
  exact Int.toNat_natCast _

set_option maxHeartbeats 2000000 in
/-- One crash→retry cycle of a running instance whose base position is `r`:
the restarted instance is handed `r + d / 1000`, which also becomes its base
position; the clock, retry count and durable record evolve as stated. -/
theorem crashCycle_spec (env : StartEnv) (w : World) (d : Nat) (pid : Nat) (t : Int) (r : Nat)
    (hv : env.videoFound = true) (hf : env.fileOnDisk = true)
    (hdb : w.dbStatus.isSome = true) (hms : w.session.manualStopping = false)
    (hst : w.session.startTime = some t) (hbp : w.session.basePos = some r)
    (hrc : w.session.retryCount.getD 0 < MAX_RETRY_ATTEMPTS) :
    (crashCycle env w d pid).1 = r + d / 1000 ∧
    ((crashCycle env w d pid).2).session.basePos = some (r + d / 1000) ∧
    ((crashCycle env w d pid).2).session.startTime = some (t + d + 3000) ∧
    ((crashCycle env w d pid).2).session.manualStopping = false ∧
    ((crashCycle env w d pid).2).dbStatus.isSome = true ∧
    ((crashCycle env w d pid).2).session.retryCount.getD 0
      ≤ w.session.retryCount.getD 0 + 1 := by
  obtain ⟨⟨ph, st, vp, bp, rc, lg, ms⟩, db, lp⟩ := w
  simp only at hst hbp hms hrc ⊢
  subst hst; subst hbp; subst hms
  cases db with
  | none => simp at hdb
  | some dv =>
    by_cases hz : r + d / 1000 = 0
    · have hr0 : r = 0 := by omega
      subst hr0
      simp [crashCycle, onExit, classifyExit, handleStreamCrash, calculateResumePosition,
        crashRetryCallback, startStream, buildFFmpegArgsCheck, logW, updateStatus, truthy,
        hv, hf, hrc, elapsed_toNat, elapsed_sup, hz]
    · simp [crashCycle, onExit, classifyExit, handleStreamCrash, calculateResumePosition,
        crashRetryCallback, startStream, buildFFmpegArgsCheck, logW, updateStatus, truthy,
        hv, hf, hrc, elapsed_toNat, elapsed_sup, hz, Nat.pos_of_ne_zero hz]

set_option maxHeartbeats 2000000 in
/-- One failure→retry cycle of either kind preserves the session invariant
(positive base position, recorded start time, no manual stop, durable record
present, retry count within bound), and schedules a retry exactly when the
retry count was below the maximum, incrementing it. -/
theorem failStep_spec (env : StartEnv) (w : World) (k : FailKind) (d : Nat) (pid : Nat)
    (t : Int)
    (hv : env.videoFound = true) (hf : env.fileOnDisk = true)
    (hdb : w.dbStatus.isSome = true) (hms : w.session.manualStopping = false)
    (hst : w.session.startTime = some t)
    (hbp : 1 ≤ w.session.basePos.getD 0)
    (hrc : w.session.retryCount.getD 0 ≤ MAX_RETRY_ATTEMPTS) :
    1 ≤ ((failStep env w k d pid).2).session.basePos.getD 0 ∧
    ((failStep env w k d pid).2).session.startTime.isSome = true ∧
    ((failStep env w k d pid).2).session.manualStopping = false ∧
    ((failStep env w k d pid).2).dbStatus.isSome = true ∧
    ((failStep env w k d pid).2).session.retryCount.getD 0 ≤ MAX_RETRY_ATTEMPTS ∧
    ((failStep env w k d pid).1 = true →
      w.session.retryCount.getD 0 < MAX_RETRY_ATTEMPTS ∧
      ((failStep env w k d pid).2).session.retryCount.getD 0
        = w.session.retryCount.getD 0 + 1) ∧
    ((failStep env w k d pid).1 = false →
      ((failStep env w k d pid).2).session.retryCount.getD 0
        = w.session.retryCount.getD 0) := by
  obtain ⟨⟨ph, st, vp, bp, rc, lg, ms⟩, db, lp⟩ := w
  simp only at hst hms hbp hrc hdb ⊢
  subst hst; subst hms
  have hne : ¬(bp.getD 0 + d / 1000 = 0) := by omega
  have hpos : 0 < bp.getD 0 + d / 1000 := by omega
  cases db with
  | none => simp at hdb
  | some dv =>
    cases k with
    | crash =>
      by_cases hlt : rc.getD 0 < MAX_RETRY_ATTEMPTS
      · simp [failStep, onExit, classifyExit, handleStreamCrash, calculateResumePosition,
          crashRetryCallback, startStream, buildFFmpegArgsCheck, logW, updateStatus, truthy,
          hv, hf, hlt, elapsed_toNat, elapsed_sup, hne, hpos]
        omega
      · simp [failStep, onExit, classifyExit, handleStreamCrash, logW, updateStatus,
          hlt, hrc, hbp]
    | errExit c =>
      by_cases hc : c = 0
      · subst hc
        simp [failStep, onExit, classifyExit, logW, updateStatus, hrc, hbp]
        split_ifs <;> simp_all
      · by_cases hlt : rc.getD 0 < MAX_RETRY_ATTEMPTS
        · simp [failStep, onExit, classifyExit, handleStreamError, calculateResumePosition,
            errorRetryCallback, startStream, buildFFmpegArgsCheck, logW, updateStatus, truthy,
            hv, hf, hlt, hc, elapsed_toNat, elapsed_sup, hne, hpos]
          omega
        · simp [failStep, onExit, classifyExit, handleStreamError, logW, updateStatus,
            hlt, hrc, hc, hbp]

/-- The spec-side cumulative resume sequence never decreases. -/
theorem specCumResumes_chain (durs : List Nat) : ∀ r : Nat,
    List.Chain (· ≤ ·) r (specCumResumes r durs) := by
  induction durs with
  | nil => intro r; exact List.Chain.nil
  | cons d ds ih =>
    intro r
    exact List.Chain.cons (Nat.le_add_right _ _) (ih _)

/-- The resume positions generated by successive crash→retry cycles are
exactly the spec's cumulative sums. -/
theorem crashTrace_spec (env : StartEnv) (durs : List Nat) :
    ∀ (w : World) (t : Int) (r : Nat),
      env.videoFound = true → env.fileOnDisk = true →
      w.dbStatus.isSome = true → w.session.manualStopping = false →
      w.session.startTime = some t → w.session.basePos = some r →
      w.session.retryCount.getD 0 + durs.length ≤ MAX_RETRY_ATTEMPTS →
      crashTrace env w durs = specCumResumes r durs := by
  induction durs with
  | nil => intro w t r _ _ _ _ _ _ _; rfl
  | cons d ds ih =>
    intro w t r hv hf hdb hms hst hbp hbound
    have hrc : w.session.retryCount.getD 0 < MAX_RETRY_ATTEMPTS := by
      simp only [List.length_cons] at hbound; omega
    obtain ⟨h1, h2, h3, h4, h5, h6⟩ := crashCycle_spec env w d 0 t r hv hf hdb hms hst hbp hrc
    have htail := ih (crashCycle env w d 0).2 (t + d + 3000) (r + d / 1000) hv hf h5 h4 h3 h2
      (by simp only [List.length_cons] at hbound; omega)
    simp only [crashTrace, specCumResumes, h1, htail]

/-- Retry accounting over an arbitrary sequence of failures of a session
whose base position is positive: the number of scheduled retries plus the
starting retry count never exceeds the maximum, and the retry count stays
within the maximum. -/
theorem runFails_spec (env : StartEnv) (evs : List (FailKind × Nat)) :
    ∀ (w : World) (t : Int),
      env.videoFound = true → env.fileOnDisk = true →
      w.dbStatus.isSome = true → w.session.manualStopping = false →
      w.session.startTime = some t → 1 ≤ w.session.basePos.getD 0 →
      w.session.retryCount.getD 0 ≤ MAX_RETRY_ATTEMPTS →
      (runFails env w evs).1 + w.session.retryCount.getD 0 ≤ MAX_RETRY_ATTEMPTS ∧
      ((runFails env w evs).2).session.retryCount.getD 0 ≤ MAX_RETRY_ATTEMPTS := by
  induction evs with
  | nil =>
    intro w t _ _ _ _ _ _ hrc
    exact ⟨by simpa [runFails] using hrc, by simpa [runFails] using hrc⟩
  | cons ev evs ih =>
    obtain ⟨k, dd⟩ := ev
    intro w t hv hf hdb hms hst hbp hrc
    obtain ⟨p1, p2, p3, p4, p5, p6, p7⟩ :=
      failStep_spec env w k dd 0 t hv hf hdb hms hst hbp hrc
    obtain ⟨t', ht'⟩ : ∃ t', ((failStep env w k dd 0).2).session.startTime = some t' := by
      cases hsome : ((failStep env w k dd 0).2).session.startTime with
      | none => rw [hsome] at p2; simp at p2
      | some x => exact ⟨x, rfl⟩
    have htail := ih (failStep env w k dd 0).2 t' hv hf p4 p3 ht' p1 p5
    have hfst : (runFails env w ((k, dd) :: evs)).1
        = (if (failStep env w k dd 0).1 then 1 else 0)
          + (runFails env (failStep env w k dd 0).2 evs).1 := rfl
    have hsnd : (runFails env w ((k, dd) :: evs)).2
        = (runFails env (failStep env w k dd 0).2 evs).2 := rfl
    refine ⟨?_, by rw [hsnd]; exact htail.2⟩
    rw [hfst]
    cases hb : (failStep env w k dd 0).1 with
    | false =>
      have h7 := p7 hb
      have hc := htail.1
      rw [h7] at hc
      simpa using hc
    | true =>
      have h6 := p6 hb
      have hc := htail.1
      rw [h6.2] at hc
      simp only [if_pos]
      omega

/-- The window property of `addStreamLog`: appending any sequence of lines
to a buffer within the cap leaves exactly the last `MAX_LOG_LINES` lines. -/
theorem appendLogs_window (entries : List LogEntry) :
    ∀ l : List LogEntry, l.length ≤ MAX_LOG_LINES →
      appendLogs l entries = (l ++ entries).drop ((l ++ entries).length - MAX_LOG_LINES) := by
  induction entries with
  | nil =>
    intro l h
    have h0 : l.length - MAX_LOG_LINES = 0 := by omega
    simp [appendLogs, h0]
  | cons e es ih =>
    intro l h
    have hstep : appendLogs l (e :: es) = appendLogs (addStreamLog l e.1 e.2) es := rfl
    by_cases hfull : l.length = MAX_LOG_LINES
    · obtain ⟨x, l₀, rfl⟩ : ∃ x l₀, l = x :: l₀ := by
        cases l with
        | nil => simp [MAX_LOG_LINES] at hfull
        | cons x l₀ => exact ⟨x, l₀, rfl⟩
      have hlen : l₀.length = 99 := by
        simp [MAX_LOG_LINES] at hfull; omega
      have hsh : addStreamLog (x :: l₀) e.1 e.2 = l₀ ++ [e] := by
        unfold addStreamLog
        rw [if_pos (by simp [MAX_LOG_LINES]; omega)]
        simp
      rw [hstep, hsh, ih _ (by simp [MAX_LOG_LINES]; omega)]
      have hidx1 : ((l₀ ++ [e]) ++ es).length - MAX_LOG_LINES = es.length := by
        simp [MAX_LOG_LINES, hlen]
        omega
      have hidx2 : ((x :: l₀) ++ e :: es).length - MAX_LOG_LINES = es.length + 1 := by
        simp [MAX_LOG_LINES, hlen]
      rw [hidx1, hidx2]
      simp [List.append_assoc]
    · have hlt : l.length < MAX_LOG_LINES := lt_of_le_of_ne h hfull
      have hsh : addStreamLog l e.1 e.2 = l ++ [e] := by
        unfold addStreamLog
        rw [if_neg (by simp; omega)]
      rw [hstep, hsh, ih _ (by simp; omega)]
      simp [List.append_assoc]

/-- The streaming service of the older retained copy refuses a start when a
session is already tracked (its lines 146-148), leaving the registry and
process set unchanged — the guard the current service lacks. -/
theorem startStream_old_refuses_active :
    (startStream_old envOK activeWorld none 1000 2).1
      = StartResult.err "Stream is already active" ∧
    ((startStream_old envOK activeWorld none 1000 2).2).liveProcs = [1] ∧
    ((startStream_old envOK activeWorld none 1000 2).2).session.procHandle = some 1 := by
  decide

/-! ### Claim theorems -/

/-- Claim C1 (the code violates it): `startStream` in the current
`services/streamingService.js` performs no already-active check.  Called
while process 1 is tracked live for the same stream id, it does not refuse
with an AlreadyActive error: it returns success, spawns process 2 and
overwrites the registry entry, leaving two live process handles — the
at-most-one-process invariant fails. -/
theorem c1_code_bug :
    activeWorld.session.procHandle.isSome = true ∧
    activeWorld.liveProcs = [1] ∧
    (startStream envOK activeWorld none 1000 2).1 = StartResult.ok false ∧
    ((startStream envOK activeWorld none 1000 2).2).liveProcs = [2, 1] ∧
    ((startStream envOK activeWorld none 1000 2).2).session.procHandle = some 2 := by
  decide

/-- Claim C2: cumulative resume monotonicity.  For a session whose running
instance was handed resume position `r` (its base position), crash→retry
cycles of `d₁..dN` milliseconds hand instance `k+1` exactly the position
handed to instance `k` plus instance `k`'s elapsed whole seconds
(`specCumResumes`), and the sequence of resume positions never decreases. -/
theorem c2_cumulative_resume (env : StartEnv) (w : World) (durs : List Nat)
    (t : Int) (r : Nat)
    (hv : env.videoFound = true) (hf : env.fileOnDisk = true)
    (hdb : w.dbStatus.isSome = true) (hms : w.session.manualStopping = false)
    (hst : w.session.startTime = some t) (hbp : w.session.basePos = some r)
    (hbound : w.session.retryCount.getD 0 + durs.length ≤ MAX_RETRY_ATTEMPTS) :
    crashTrace env w durs = specCumResumes r durs ∧
    List.Chain (· ≤ ·) r (crashTrace env w durs) := by
  have h := crashTrace_spec env durs w t r hv hf hdb hms hst hbp hbound
  exact ⟨h, h ▸ specCumResumes_chain durs r⟩

/-- Witness for C2 at the spec's own scenario: resume at 3600 s, run
1800 s, crash — the restarted instance is handed 5400 s. -/
theorem c2_witness :
    (crashTrace envOK resumedWorld [1800000] = specCumResumes 3600 [1800000] ∧
      List.Chain (· ≤ ·) 3600 (crashTrace envOK resumedWorld [1800000])) ∧
    specCumResumes 3600 [1800000] = [5400] :=
  ⟨c2_cumulative_resume envOK resumedWorld [1800000] 0 3600 (by decide) (by decide)
      (by decide) (by decide) (by decide) (by decide) (by decide),
    by decide⟩

/-- Claim C3 (the code violates the stated delays): the crash path does use
a fixed 3000 ms delay, and a fresh start followed by a first error exit at
elapsed 12 s does schedule exactly one retry with resume position 12 — but
that retry's delay is `backoffDelay 0 = 1500` ms, not ~3000 ms, because the
exponent uses the pre-increment retry count (`Math.pow(2, 0 - 1) = 1/2`);
the attempt-indexed delays are 1500/3000/6000 ms instead of the documented
3000/6000/12000 ms. -/
theorem c3_code_bug :
    backoffDelay 0 = 1500 ∧ backoffDelay 1 = 3000 ∧ backoffDelay 2 = 6000 ∧
    (1500 : ℚ) ≠ 3000 ∧
    (onExit freshWorld 1 (some 1) none 12000).1
      = ExitOutcome.retryError 12 (backoffDelay 0) ∧
    (onExit freshWorld 1 none (some "SIGSEGV") 12000).1
      = ExitOutcome.retryCrash 12 3000 := by
  refine ⟨?_, ?_, ?_, by norm_num, by rfl, by rfl⟩
  · unfold backoffDelay
    rw [show ((0 : ℕ) : ℤ) - 1 = -1 by norm_num, zpow_neg_one]
    norm_num
  · unfold backoffDelay
    norm_num
  · unfold backoffDelay
    rw [show ((2 : ℕ) : ℤ) - 1 = 1 by norm_num, zpow_one]
    norm_num

/-- Counterexample to claim C4: an error exit schedules a retry; a manual
`stopStream` then runs (drift-repair branch: durable status set offline, the
record remains); when the pending timer fires, the claimed re-check ("record
wants live, or session exists") is false, yet the callback — which only
checks that the record exists — restarts the stream and spawns process 2. -/
theorem c4_counterexample :
    (onExit freshWorld 1 (some 1) none 12000).1
      = ExitOutcome.retryError 12 (backoffDelay 0) ∧
    (stopStream c4_afterExit true 13000).1
      = StopResult.ok "Stream status fixed (was not active but marked as live)" ∧
    c4_afterStop.dbStatus = some DbStatus.offline ∧
    specRetryRecheck c4_afterStop = false ∧
    c4_afterTimer.session.procHandle = some 2 ∧
    c4_afterTimer.liveProcs = [2] ∧
    c4_afterTimer.dbStatus = some DbStatus.live := by
  exact ⟨by rfl, by decide, by decide, by decide, by decide, by decide, by decide⟩

/-- Claim C4 amended: the scheduled restart callbacks re-check only that the
stream's durable record still exists, and abort — no process spawned, no
registry or retry-count change — exactly when the record has been deleted; a
manual stop that leaves the record in place does not prevent the pending
restart from firing. -/
theorem c4_amended (env : StartEnv) (w : World) (p rn : Nat) (now : Int) (pid : Nat)
    (h : w.dbStatus = none) :
    (errorRetryCallback env w p rn now pid).session.procHandle = w.session.procHandle ∧
    (errorRetryCallback env w p rn now pid).liveProcs = w.liveProcs ∧
    (errorRetryCallback env w p rn now pid).dbStatus = none ∧
    (errorRetryCallback env w p rn now pid).session.retryCount = w.session.retryCount ∧
    crashRetryCallback env w p now pid = w := by
  obtain ⟨⟨ph, st, vp, bp, rc, lg, ms⟩, db, lp⟩ := w
  simp only at h
  subst h
  simp [errorRetryCallback, crashRetryCallback, logW]

/-- Witness for C4 amended: with the durable record deleted, both retry
callbacks abort. -/
theorem c4_amended_witness :
    (errorRetryCallback envOK deletedWorld 7 1 100 9).session.procHandle
      = deletedWorld.session.procHandle ∧
    (errorRetryCallback envOK deletedWorld 7 1 100 9).liveProcs = deletedWorld.liveProcs ∧
    (errorRetryCallback envOK deletedWorld 7 1 100 9).dbStatus = none ∧
    (errorRetryCallback envOK deletedWorld 7 1 100 9).session.retryCount
      = deletedWorld.session.retryCount ∧
    crashRetryCallback envOK deletedWorld 7 100 9 = deletedWorld :=
  c4_amended envOK deletedWorld 7 1 100 9 rfl

/-- Counterexample to claim C5: from a fresh start, four consecutive crashes
each within the first second of their instance all schedule retries.  Each
automatic restart passes resume position 0, which `if (!resumePosition)`
treats as a fresh start, clearing the retry count — so four (indeed
arbitrarily many) retries fire, exceeding the bound of 3. -/
theorem c5_counterexample :
    (runFails envOK freshWorld evs4).1 = 4 ∧ MAX_RETRY_ATTEMPTS < 4 := by
  exact ⟨by decide, by decide⟩

set_option maxHeartbeats 2000000 in
/-- One failure→retry cycle of either kind preserves, with no assumption on
the base position, the running-session facts: retry count within the
maximum, a recorded start time, no manual-stop flag, durable record
present. -/
theorem failStep_inv (env : StartEnv) (w : World) (k : FailKind) (d : Nat) (pid : Nat)
    (t : Int)
    (hv : env.videoFound = true) (hf : env.fileOnDisk = true)
    (hdb : w.dbStatus.isSome = true) (hms : w.session.manualStopping = false)
    (hst : w.session.startTime = some t)
    (hrc : w.session.retryCount.getD 0 ≤ MAX_RETRY_ATTEMPTS) :
    ((failStep env w k d pid).2).session.retryCount.getD 0 ≤ MAX_RETRY_ATTEMPTS ∧
    ((failStep env w k d pid).2).session.startTime.isSome = true ∧
    ((failStep env w k d pid).2).session.manualStopping = false ∧
    ((failStep env w k d pid).2).dbStatus.isSome = true := by
  obtain ⟨⟨ph, st, vp, bp, rc, lg, ms⟩, db, lp⟩ := w
  simp only at hst hms hrc hdb ⊢
  subst hst; subst hms
  cases db with
  | none => simp at hdb
  | some dv =>
    cases k with
    | crash =>
      by_cases hlt : rc.getD 0 < MAX_RETRY_ATTEMPTS
      · by_cases hz : bp.getD 0 + d / 1000 = 0
        · simp [failStep, onExit, classifyExit, handleStreamCrash, calculateResumePosition,
            crashRetryCallback, startStream, buildFFmpegArgsCheck, logW, updateStatus, truthy,
            hv, hf, hlt, elapsed_toNat, elapsed_sup, hz]
        · simp [failStep, onExit, classifyExit, handleStreamCrash, calculateResumePosition,
            crashRetryCallback, startStream, buildFFmpegArgsCheck, logW, updateStatus, truthy,
            hv, hf, hlt, elapsed_toNat, elapsed_sup, hz, Nat.pos_of_ne_zero hz]
          omega
      · simp [failStep, onExit, classifyExit, handleStreamCrash, logW, updateStatus,
          hlt, hrc]
    | errExit c =>
      by_cases hc : c = 0
      · subst hc
        simp [failStep, onExit, classifyExit, logW, updateStatus, hrc]
        split_ifs <;> simp_all
      · by_cases hlt : rc.getD 0 < MAX_RETRY_ATTEMPTS
        · by_cases hz : bp.getD 0 + d / 1000 = 0
          · simp [failStep, onExit, classifyExit, handleStreamError, calculateResumePosition,
              errorRetryCallback, startStream, buildFFmpegArgsCheck, logW, updateStatus,
              truthy, hv, hf, hlt, hc, elapsed_toNat, elapsed_sup, hz]
          · simp [failStep, onExit, classifyExit, handleStreamError, calculateResumePosition,
              errorRetryCallback, startStream, buildFFmpegArgsCheck, logW, updateStatus,
              truthy, hv, hf, hlt, hc, elapsed_toNat, elapsed_sup, hz,
              Nat.pos_of_ne_zero hz]
            omega
        · simp [failStep, onExit, classifyExit, handleStreamError, logW, updateStatus,
            hlt, hrc, hc]

/-- The retry count stays within the maximum across any sequence of failure
cycles of a running session, regardless of its base position. -/
theorem runFails_rc_le (env : StartEnv) (evs : List (FailKind × Nat)) :
    ∀ (w : World) (t : Int),
      env.videoFound = true → env.fileOnDisk = true →
      w.dbStatus.isSome = true → w.session.manualStopping = false →
      w.session.startTime = some t →
      w.session.retryCount.getD 0 ≤ MAX_RETRY_ATTEMPTS →
      ((runFails env w evs).2).session.retryCount.getD 0 ≤ MAX_RETRY_ATTEMPTS := by
  induction evs with
  | nil => intro w t _ _ _ _ _ hrc; simpa [runFails] using hrc
  | cons ev evs ih =>
    obtain ⟨k, dd⟩ := ev
    intro w t hv hf hdb hms hst hrc
    obtain ⟨q1, q2, q3, q4⟩ := failStep_inv env w k dd 0 t hv hf hdb hms hst hrc
    obtain ⟨t', ht'⟩ : ∃ t', ((failStep env w k dd 0).2).session.startTime = some t' := by
      cases hsome : ((failStep env w k dd 0).2).session.startTime with
      | none => rw [hsome] at q2; simp at q2
      | some x => exact ⟨x, rfl⟩
    have hsnd : (runFails env w ((k, dd) :: evs)).2
        = (runFails env (failStep env w k dd 0).2 evs).2 := rfl
    rw [hsnd]
    exact ih (failStep env w k dd 0).2 t' hv hf q4 q3 ht' q1

/-- A failure cycle of a session whose retry count is not below the maximum
schedules no retry, whatever the failure kind or the base position. -/
theorem failStep_exhausted (env : StartEnv) (w : World) (k : FailKind) (d : Nat)
    (pid : Nat) (hms : w.session.manualStopping = false)
    (hmax : ¬ w.session.retryCount.getD 0 < MAX_RETRY_ATTEMPTS) :
    (failStep env w k d pid).1 = false := by
  obtain ⟨⟨ph, st, vp, bp, rc, lg, ms⟩, db, lp⟩ := w
  simp only at hms hmax
  subst hms
  cases k with
  | crash =>
    simp [failStep, onExit, classifyExit, handleStreamCrash, logW, updateStatus, hmax]
  | errExit c =>
    by_cases hc : c = 0
    · subst hc
      simp [failStep, onExit, classifyExit, logW, updateStatus]
    · simp [failStep, onExit, classifyExit, handleStreamError, logW, updateStatus, hmax, hc]

/-- At a retry count at the maximum, both retry controllers take their else
branch: no restart timer, and the durable record is written offline. -/
theorem handlers_exhausted (w : World) (reason : String) (c : Int) (now : Int)
    (hdb : w.dbStatus.isSome = true)
    (hmax : ¬ w.session.retryCount.getD 0 < MAX_RETRY_ATTEMPTS) :
    (handleStreamCrash w reason now).1 = ExitOutcome.noRetry ∧
    ((handleStreamCrash w reason now).2).dbStatus = some DbStatus.offline ∧
    (handleStreamError w c now).1 = ExitOutcome.noRetry ∧
    ((handleStreamError w c now).2).dbStatus = some DbStatus.offline := by
  obtain ⟨⟨ph, st, vp, bp, rc, lg, ms⟩, db, lp⟩ := w
  simp only at hmax hdb
  cases db with
  | none => simp at hdb
  | some dv =>
    simp [handleStreamCrash, handleStreamError, logW, updateStatus, hmax]

/-- Claim C5 amended: for a running session, the retry count never exceeds
`MAX_RETRY_ATTEMPTS` at any point of any failure trace; a failure arriving
with the retry count at the maximum schedules no retry, and both retry
controllers then mark the durable status offline; and provided the
session's base position is at least 1 s (so every computed resume position
is positive and no automatic restart is mistaken for a fresh start), any
sequence of consecutive failures of either kind schedules at most
`MAX_RETRY_ATTEMPTS - retryCount` retries. -/
theorem c5_amended (env : StartEnv) (w : World) (evs : List (FailKind × Nat)) (t : Int)
    (hv : env.videoFound = true) (hf : env.fileOnDisk = true)
    (hdb : w.dbStatus.isSome = true) (hms : w.session.manualStopping = false)
    (hst : w.session.startTime = some t)
    (hrc : w.session.retryCount.getD 0 ≤ MAX_RETRY_ATTEMPTS) :
    (∀ j, ((runFails env w (evs.take j)).2).session.retryCount.getD 0
      ≤ MAX_RETRY_ATTEMPTS) ∧
    (w.session.retryCount.getD 0 = MAX_RETRY_ATTEMPTS →
      (∀ k d pid, (failStep env w k d pid).1 = false) ∧
      ∀ reason c now2,
        (handleStreamCrash w reason now2).1 = ExitOutcome.noRetry ∧
        ((handleStreamCrash w reason now2).2).dbStatus = some DbStatus.offline ∧
        (handleStreamError w c now2).1 = ExitOutcome.noRetry ∧
        ((handleStreamError w c now2).2).dbStatus = some DbStatus.offline) ∧
    (1 ≤ w.session.basePos.getD 0 →
      (runFails env w evs).1 + w.session.retryCount.getD 0 ≤ MAX_RETRY_ATTEMPTS) := by
  refine ⟨fun j => runFails_rc_le env (evs.take j) w t hv hf hdb hms hst hrc, ?_,
    fun hbp => (runFails_spec env evs w t hv hf hdb hms hst hbp hrc).1⟩
  intro hmax
  have hnlt : ¬ w.session.retryCount.getD 0 < MAX_RETRY_ATTEMPTS := by omega
  exact ⟨fun k d pid => failStep_exhausted env w k d pid hms hnlt,
    fun reason c now2 => handlers_exhausted w reason c now2 hdb hnlt⟩

/-- Witness for C5 amended at a session with its retry budget exhausted
(retry count 3, base 5 s): across three further failures the count stays at
the maximum, no retry is scheduled — zero retries fire — and both retry
controllers mark the record offline. -/
theorem c5_witness :
    ((∀ j, ((runFails envOK exhaustedWorld (evs3.take j)).2).session.retryCount.getD 0
        ≤ MAX_RETRY_ATTEMPTS) ∧
      (exhaustedWorld.session.retryCount.getD 0 = MAX_RETRY_ATTEMPTS →
        (∀ k d pid, (failStep envOK exhaustedWorld k d pid).1 = false) ∧
        ∀ reason c now2,
          (handleStreamCrash exhaustedWorld reason now2).1 = ExitOutcome.noRetry ∧
          ((handleStreamCrash exhaustedWorld reason now2).2).dbStatus
            = some DbStatus.offline ∧
          (handleStreamError exhaustedWorld c now2).1 = ExitOutcome.noRetry ∧
          ((handleStreamError exhaustedWorld c now2).2).dbStatus
            = some DbStatus.offline) ∧
      (1 ≤ exhaustedWorld.session.basePos.getD 0 →
        (runFails envOK exhaustedWorld evs3).1
            + exhaustedWorld.session.retryCount.getD 0 ≤ MAX_RETRY_ATTEMPTS)) :=
  c5_amended envOK exhaustedWorld evs3 0 (by decide) (by decide) (by decide) (by decide)
    (by decide) (by decide)

/-- Claim C6: `calculateResumePosition` returns `basePosition + max(0,
floor((now − startedAt) / 1000))` — seconds granularity — and, when no start
time is recorded, the stored base position (or 0 when none is stored),
matching the specification formula verbatim. -/
theorem c6_resume_formula (w : World) (now : Int) :
    (calculateResumePosition w now).1
      = specResumePosition w.session.basePos w.session.startTime now := by
  obtain ⟨⟨ph, st, vp, bp, rc, lg, ms⟩, db, lp⟩ := w
  cases st <;> simp [calculateResumePosition, specResumePosition, logW]

/-- Counterexample to claim C7: SIGBUS is a fault signal, but a process
killed by SIGBUS (exit code null, no manual stop) is classified as a normal
exit by the handler — only SIGSEGV is recognised — so no retry path runs. -/
theorem c7_counterexample :
    "SIGBUS" ∈ spec_faultSignals ∧
    classifyExit false none (some "SIGBUS") = ExitClass.normalExit := by
  exact ⟨by decide, by decide⟩

/-- Claim C7 amended: a termination with signal SIGSEGV specifically (and
no manual stop) is classified as a crash regardless of the exit code, and —
when the retry count is below the maximum — the exit handler invokes the
crash retry path, scheduling a 3000 ms restart at the computed resume
position. -/
theorem c7_amended (w : World) (pid : Nat) (code : Option Int) (now : Int)
    (hms : w.session.manualStopping = false)
    (hrc : w.session.retryCount.getD 0 < MAX_RETRY_ATTEMPTS) :
    classifyExit false code (some "SIGSEGV") = ExitClass.crashSignal "SIGSEGV" ∧
    (onExit w pid code (some "SIGSEGV") now).1
      = ExitOutcome.retryCrash
          (specResumePosition w.session.basePos w.session.startTime now) 3000 := by
  obtain ⟨⟨ph, st, vp, bp, rc, lg, ms⟩, db, lp⟩ := w
  simp only at hms hrc
  subst hms
  refine ⟨by simp [classifyExit], ?_⟩
  cases st <;>
    simp [onExit, classifyExit, handleStreamCrash, calculateResumePosition,
      specResumePosition, logW, updateStatus, hrc]

/-- Witness for C7 amended: a SIGSEGV kill of the fresh session at 12 s is
classified as a crash and schedules the 3000 ms crash retry. -/
theorem c7_witness :
    classifyExit false (some 1) (some "SIGSEGV") = ExitClass.crashSignal "SIGSEGV" ∧
    (onExit freshWorld 1 (some 1) (some "SIGSEGV") 12000).1
      = ExitOutcome.retryCrash
          (specResumePosition freshWorld.session.basePos freshWorld.session.startTime 12000)
          3000 :=
  c7_amended freshWorld 1 (some 1) 12000 (by decide) (by decide)

/-- Claim C8: `stopStream` with no live tracked process returns the
NotActive error (`'Stream is not active'`) when the durable status is
already offline, and when the durable status says live it repairs the
record to offline and returns success with the whole rest of the world —
session, tracked processes — untouched. -/
theorem c8_stop_inactive (w : World) (killOk : Bool) (now : Int)
    (h : w.session.procHandle = none) :
    (w.dbStatus = some DbStatus.offline →
      stopStream w killOk now = (StopResult.err "Stream is not active", w)) ∧
    (w.dbStatus = some DbStatus.live →
      stopStream w killOk now
        = (StopResult.ok "Stream status fixed (was not active but marked as live)",
           { w with dbStatus := some DbStatus.offline })) := by
  obtain ⟨⟨ph, st, vp, bp, rc, lg, ms⟩, db, lp⟩ := w
  simp only at h
  subst h
  constructor
  · intro hdb
    simp only at hdb
    subst hdb
    simp [stopStream, updateStatus]
  · intro hdb
    simp only at hdb
    subst hdb
    simp [stopStream, updateStatus]

/-- Witness for C8: the drift world is repaired to offline with nothing
else changed; the offline world gets the NotActive error. -/
theorem c8_witness :
    stopStream driftWorld true 5
      = (StopResult.ok "Stream status fixed (was not active but marked as live)",
         { driftWorld with dbStatus := some DbStatus.offline }) ∧
    stopStream w0 true 5 = (StopResult.err "Stream is not active", w0) :=
  ⟨(c8_stop_inactive driftWorld true 5 rfl).2 rfl,
   (c8_stop_inactive w0 true 5 rfl).1 rfl⟩

/-- Claim C9: the per-stream log buffer, fed any sequence of appended
lines, always equals the last `MAX_LOG_LINES` (100) of them in order —
oldest entries are evicted first and FIFO order is preserved — so its size
is capped at 100 and stays there once more than 100 lines have been
appended. -/
theorem c9_log_buffer_bound (entries : List LogEntry) :
    appendLogs [] entries = entries.drop (entries.length - MAX_LOG_LINES) ∧
    (appendLogs [] entries).length = min entries.length MAX_LOG_LINES := by
  have h := appendLogs_window entries [] (by simp)
  simp only [List.nil_append] at h
  refine ⟨h, ?_⟩
  rw [h, List.length_drop]
  omega

/-- Claim C10: a fresh `startStream` (resumePosition absent) deletes the
stored retry count before any precondition is checked — the count is `none`
afterwards in every outcome, including the stream-record-missing,
video-record-missing and media-file-missing failures. -/
theorem c10_fresh_start_clears_retry (env : StartEnv) (w : World) (now : Int) (pid : Nat) :
    ((startStream env w none now pid).2).session.retryCount = none ∧
    (w.dbStatus = none →
      (startStream env w none now pid).1 = StartResult.err "Stream not found") ∧
    (w.dbStatus.isSome = true → env.videoFound = false →
      (startStream env w none now pid).1
        = StartResult.err "Video record not found in database") ∧
    (w.dbStatus.isSome = true → env.videoFound = true → env.fileOnDisk = false →
      (startStream env w none now pid).1
        = StartResult.err
            "Video file not found on disk. Please check paths and file existence.") := by
  obtain ⟨⟨ph, st, vp, bp, rc, lg, ms⟩, db, lp⟩ := w
  obtain ⟨ev, ef⟩ := env
  refine ⟨?_, ?_, ?_, ?_⟩
  · cases db <;> cases ev <;> cases ef <;> cases vp <;>
      simp [startStream, truthy, buildFFmpegArgsCheck, logW, updateStatus]
  · intro h
    simp only at h
    subst h
    simp [startStream, truthy]
  · intro hdb hv
    cases db with
    | none => simp at hdb
    | some dv =>
      simp only at hv
      subst hv
      simp [startStream, truthy, buildFFmpegArgsCheck, logW]
  · intro hdb hv hf
    cases db with
    | none => simp at hdb
    | some dv =>
      simp only at hv hf
      subst hv; subst hf
      simp [startStream, truthy, buildFFmpegArgsCheck, logW]

/-- Witness for C10: a fresh start against a missing video record fails and
still leaves the retry count cleared. -/
theorem c10_witness :
    ((startStream ⟨false, true⟩ w0 none 5 1).2).session.retryCount = none ∧
    (startStream ⟨false, true⟩ w0 none 5 1).1
      = StartResult.err "Video record not found in database" :=
  ⟨(c10_fresh_start_clears_retry ⟨false, true⟩ w0 5 1).1,
   (c10_fresh_start_clears_retry ⟨false, true⟩ w0 5 1).2.2.1 rfl rfl⟩

end StreamFlow
